import Mathlib

/-!
Shallow embedding of the hawkeye control plane (hawkeye-api handlers and
backend, hawkeye-worker metrics endpoint) and proofs about its
status-resolution and guarded-transition logic.

Conventions used throughout:
* Rust `Option<T>` becomes `Option T`; a panic (`unwrap` / `expect` on a
  missing value, or a failed remote mutating call) is modelled by the
  embedded function returning `none` at its outer `Option` layer.
* Remote fetches (`Api::get`, `Api::list`, `Api::get_status`) are passed in
  as parameters holding the value the cluster would return: `none` for a
  fetch that errors (NotFound), `some v` for a successful fetch.
* Mutating calls issued against the cluster (scale patches, label patches,
  container-spec patches, create and delete calls) are recorded as an
  ordered list of `Effect` values rather than performed.
* Label maps and ConfigMap data maps are association lists; the insertion
  order of the deployment index is arranged so that `List.lookup` sees the
  most recently inserted binding first, matching HashMap overwrite
  semantics.
-/

namespace Hawkeye

/-- The Watcher status enumeration from hawkeye_core::models::Status
(Running, Pending, Ready, Error). -/
inductive Status where
  | running
  | pending
  | ready
  | error
deriving DecidableEq, Repr

/-- Modelled from the spec: hawkeye_core::models::Status is not under src/;
the spec says the target label stores Ready or Running and that labels are
parsed into the closed Status enumeration, any unparsable value mapping to
the Error branch. We model the serde string forms as the lowercase
constructor names; the claims only depend on some strings parsing to each
constructor and others failing to parse. This embeds the
serde_json::from_str call in get_watcher_status. -/
def parseStatus : String → Option Status
  | "running" => some Status.running
  | "pending" => some Status.pending
  | "ready" => some Status.ready
  | "error" => some Status.error
  | _ => none

/-- Embeds the fields of k8s DeploymentStatus read by the code:
available_replicas (Option, absent counted as 0). -/
structure DeploymentStatus where
  available_replicas : Option Int
deriving DecidableEq, Repr

/-- Embeds the fields of k8s ObjectMeta read by the code: name and labels. -/
structure ObjectMeta where
  name : Option String
  labels : Option (List (String × String))
deriving DecidableEq, Repr

/-- Embeds the fields of k8s Deployment read by the code. -/
structure Deployment where
  metadata : ObjectMeta
  status : Option DeploymentStatus
deriving DecidableEq, Repr

/-- Embeds get_watcher_status (handlers.rs WatcherStatus for Deployment,
identically backend.rs get_watcher_status).

The Rust computes target_status as
labels.map(get "target_status" then parse).flatten().flatten()
  .unwrap_or(\x7b expect name; log; Status::Error \x7d).
Rust Option::unwrap_or evaluates its argument eagerly, so the block holding
expect("Name must be present") runs on every call: the function panics
whenever metadata.name is None, regardless of the label or the runtime
status field. We therefore return `none` (panic) exactly when the name is
absent, and otherwise the resolved status. -/
def get_watcher_status (d : Deployment) : Option Status :=
  match d.metadata.name with
  | none => none
  | some _ =>
    let target_status : Status :=
      ((d.metadata.labels.bind (fun labels => List.lookup "target_status" labels)).bind
        (fun status => parseStatus status)).getD Status.error
    match d.status with
    | some status =>
      let deploy_status : Status :=
        if (status.available_replicas.getD 0) > 0 then Status.running else Status.ready
      some (match deploy_status, target_status with
        | Status.running, Status.running => Status.running
        | Status.ready, Status.ready => Status.ready
        | Status.ready, Status.running => Status.pending
        | Status.running, Status.ready => Status.pending
        | _, _ => Status.error)
    | none => some Status.error

/-- Written from the claim C1's words: observed state is Running if the
available-replica count is positive (absent counting as 0), Ready
otherwise. -/
def specObserved (ds : DeploymentStatus) : Status :=
  if (ds.available_replicas.getD 0) > 0 then Status.running else Status.ready

/-- Written from the claim C1's words: the resolution table on
(observed, target). -/
def specTable : Status → Status → Status
  | Status.running, Status.running => Status.running
  | Status.ready, Status.ready => Status.ready
  | Status.ready, Status.running => Status.pending
  | Status.running, Status.ready => Status.pending
  | _, _ => Status.error

/-- Written from the claim C1's words: the derived status of a Deployment —
Error when the runtime status field is absent or the target label is
missing or unparsable, otherwise the table applied to (observed, target). -/
def specDerived (d : Deployment) : Status :=
  match d.status with
  | none => Status.error
  | some ds =>
    match (d.metadata.labels.bind (fun labels => List.lookup "target_status" labels)).bind
        (fun status => parseStatus status) with
    | none => Status.error
    | some t => specTable (specObserved ds) t

/-- The three resource kinds backing a Watcher: ConfigMap, Deployment and
Service (the spec's Config, Workload and Endpoint resources). -/
inductive ResourceKind where
  | config
  | workload
  | endpoint
deriving DecidableEq, Repr

/-- A mutating call issued against the cluster, recorded in issue order. -/
inductive Effect where
  | patchScale (replicas : Nat)
  | patchTargetLabel (s : Status)
  | patchContainerSpec
  | createResource (k : ResourceKind)
  | deleteResource (k : ResourceKind)
deriving DecidableEq, Repr

/-- The outcome enumeration of backend.rs WatcherStartStatus. -/
inductive WatcherStartStatus where
  | alreadyRunning
  | currentlyUpdating
  | starting
  | inErrorState
  | notFound
deriving DecidableEq, Repr

/-- The outcome enumeration of backend.rs WatcherStopStatus. -/
inductive WatcherStopStatus where
  | alreadyStopped
  | currentlyUpdating
  | stopping
  | inErrorState
  | notFound
deriving DecidableEq, Repr

/-- Embeds start_watcher (handlers.rs). The input is the result of the
Deployment get (none = fetch error, mapped to 404). The output carries the
backend.rs outcome name, the HTTP status code from handlers.rs, and the
mutating calls issued in order; `none` models a panic inside
get_watcher_status. The two patch calls on the Ready branch are unwrapped
in the source; we model them as succeeding and record them as effects. -/
def start_watcher (fetch : Option Deployment) :
    Option (WatcherStartStatus × Nat × List Effect) :=
  match fetch with
  | none => some (WatcherStartStatus.notFound, 404, [])
  | some d =>
    match get_watcher_status d with
    | none => none
    | some Status.running => some (WatcherStartStatus.alreadyRunning, 200, [])
    | some Status.pending => some (WatcherStartStatus.currentlyUpdating, 409, [])
    | some Status.ready =>
        some (WatcherStartStatus.starting, 200,
          [Effect.patchScale 1, Effect.patchTargetLabel Status.running])
    | some Status.error => some (WatcherStartStatus.inErrorState, 406, [])

/-- Embeds stop_watcher (handlers.rs), conventions as in start_watcher. -/
def stop_watcher (fetch : Option Deployment) :
    Option (WatcherStopStatus × Nat × List Effect) :=
  match fetch with
  | none => some (WatcherStopStatus.notFound, 404, [])
  | some d =>
    match get_watcher_status d with
    | none => none
    | some Status.ready => some (WatcherStopStatus.alreadyStopped, 200, [])
    | some Status.pending => some (WatcherStopStatus.currentlyUpdating, 409, [])
    | some Status.running =>
        some (WatcherStopStatus.stopping, 200,
          [Effect.patchScale 0, Effect.patchTargetLabel Status.ready])
    | some Status.error => some (WatcherStopStatus.inErrorState, 406, [])

/-- Written from the claim C2's words: the start decision table from the
derived status to (outcome, HTTP code, mutating calls). -/
def specStartDecision : Status → WatcherStartStatus × Nat × List Effect
  | Status.running => (WatcherStartStatus.alreadyRunning, 200, [])
  | Status.pending => (WatcherStartStatus.currentlyUpdating, 409, [])
  | Status.ready =>
      (WatcherStartStatus.starting, 200,
        [Effect.patchScale 1, Effect.patchTargetLabel Status.running])
  | Status.error => (WatcherStartStatus.inErrorState, 406, [])

/-- Written from the claim C2's words: the stop decision table. -/
def specStopDecision : Status → WatcherStopStatus × Nat × List Effect
  | Status.ready => (WatcherStopStatus.alreadyStopped, 200, [])
  | Status.pending => (WatcherStopStatus.currentlyUpdating, 409, [])
  | Status.running =>
      (WatcherStopStatus.stopping, 200,
        [Effect.patchScale 0, Effect.patchTargetLabel Status.ready])
  | Status.error => (WatcherStopStatus.inErrorState, 406, [])

/-- Embeds hawkeye_core::models::Source as read by the handlers: the ingest
port and the derived ingest address. -/
structure Source where
  ingest_port : Nat
  ingest_ip : Option String
deriving DecidableEq, Repr

/-- Embeds hawkeye_core::models::Watcher as read by the handlers. -/
structure Watcher where
  id : Option String
  source : Source
  tags : Option (List (String × String))
  status : Option Status
  status_description : Option String
deriving DecidableEq, Repr

/-- Embeds create_watcher (handlers.rs). Uuid::new_v4 is nondeterministic,
so the generated identifier is a parameter; the three create calls are
unwrapped in the source and modelled as succeeding, recorded as effects in
issue order. Returns the response Watcher, the HTTP code and the effects. -/
def create_watcher (newId : String) (watcher : Watcher) :
    Watcher × Nat × List Effect :=
  let w1 : Watcher := { watcher with id := some newId }
  let w2 : Watcher :=
    { w1 with status := some Status.pending,
              source := { w1.source with ingest_ip := none } }
  (w2, 201,
    [Effect.createResource ResourceKind.config,
     Effect.createResource ResourceKind.workload,
     Effect.createResource ResourceKind.endpoint])

/-- Embeds the fields of k8s ConfigMap read by the code. The data map
stores JSON strings; the code only ever reads the "watcher.json" entry and
immediately runs serde_json::from_str on it, so the entry value is modelled
as the decode result of the stored string: `none` for a string that fails
to decode (an unwrap panic at the call sites), `some w` for one that
decodes to the Watcher w. -/
structure ConfigMap where
  data : Option (List (String × Option Watcher))
deriving DecidableEq, Repr

/-- Embeds the chain config_map.data.unwrap().get("watcher.json").unwrap()
followed by serde_json::from_str(...).unwrap(): `none` models a panic from
any of the three unwraps. -/
def configWatcher (c : ConfigMap) : Option Watcher :=
  match c.data with
  | none => none
  | some d =>
    match List.lookup "watcher.json" d with
    | none => none
    | some ow => ow

/-- Embeds upgrade_watcher (handlers.rs). Inputs: the Deployment fetch, the
ConfigMap fetch, and whether the container-spec patch call succeeds. Output:
HTTP code, response Watcher when one is serialized, and effects; `none`
models a panic (ConfigMap parse unwraps or get_watcher_status). -/
def upgrade_watcher (deployFetch : Option Deployment) (configFetch : Option ConfigMap)
    (patchOk : Bool) : Option (Nat × Option Watcher × List Effect) :=
  match deployFetch with
  | none => some (404, none, [])
  | some d =>
    match configFetch with
    | none => some (404, none, [])
    | some c =>
      match configWatcher c with
      | none => none
      | some w =>
        match get_watcher_status d with
        | none => none
        | some watcher_status =>
          if watcher_status ≠ Status.ready then
            some (400, none, [])
          else
            let w2 : Watcher := { w with status := some watcher_status }
            if patchOk then
              some (200, some w2, [Effect.patchContainerSpec])
            else
              some (500, none, [Effect.patchContainerSpec])

/-- Embeds delete_watcher (handlers.rs). The three delete calls are always
issued, Deployment then ConfigMap then Service; the results of the first
two are discarded (let _ = ...), and the HTTP code is decided by the Service
delete alone: 200 on Ok, 404 on Err. Each Boolean input tells whether the
corresponding delete call returned Ok. -/
def delete_watcher (workloadDeleteOk configDeleteOk endpointDeleteOk : Bool) :
    Nat × List Effect :=
  ((if endpointDeleteOk then 200 else 404),
    [Effect.deleteResource ResourceKind.workload,
     Effect.deleteResource ResourceKind.config,
     Effect.deleteResource ResourceKind.endpoint])

/-- Embeds the index-building loop of list_watchers (handlers.rs): for each
Deployment, labels.as_ref().unwrap() (panic when labels are absent), then
insert watcher_id → get_watcher_status into a HashMap when the watcher_id
label is present. Later inserts overwrite earlier ones, so the entry for
the head Deployment is appended after the entries of the tail; List.lookup
then sees the most recent insert first. `none` models a panic. -/
def buildIndex : List Deployment → Option (List (String × Status))
  | [] => some []
  | d :: ds =>
    match d.metadata.labels with
    | none => none
    | some labels =>
      match List.lookup "watcher_id" labels with
      | none => buildIndex ds
      | some watcher_id =>
        match get_watcher_status d with
        | none => none
        | some s =>
          match buildIndex ds with
          | none => none
          | some rest => some (rest ++ [(watcher_id, s)])

/-- Embeds the ConfigMap loop of list_watchers (handlers.rs): parse each
ConfigMap's watcher.json (unwrap panics modelled by configWatcher), look the
watcher id (or "undefined") up in the deployment index, defaulting to
Status::Error, and blank the ingest address. -/
def renderConfigs (idx : List (String × Status)) : List ConfigMap → Option (List Watcher)
  | [] => some []
  | c :: cs =>
    match configWatcher c with
    | none => none
    | some watcher =>
      let calculated_status :=
        (List.lookup (watcher.id.getD "undefined") idx).getD Status.error
      match renderConfigs idx cs with
      | none => none
      | some rest =>
        let w2 : Watcher :=
          { watcher with status := some calculated_status,
                         source := { watcher.source with ingest_ip := none } }
        some (w2 :: rest)

/-- Embeds list_watchers (handlers.rs): build the deployment index, then
render one Watcher per ConfigMap. The two list fetches are passed in as the
item lists the cluster returned. -/
def list_watchers (ds : List Deployment) (cs : List ConfigMap) : Option (List Watcher) :=
  match buildIndex ds with
  | none => none
  | some idx => renderConfigs idx cs

/-- Embeds the fields of k8s ContainerStateWaiting read by the code. -/
structure ContainerStateWaiting where
  message : Option String
deriving DecidableEq, Repr

/-- Embeds the fields of k8s ContainerState read by the code. -/
structure ContainerState where
  waiting : Option ContainerStateWaiting
deriving DecidableEq, Repr

/-- Embeds the fields of k8s ContainerStatus read by the code. -/
structure ContainerStatus where
  state : Option ContainerState
deriving DecidableEq, Repr

/-- Embeds the fields of k8s PodStatus read by the code. -/
structure PodStatus where
  container_statuses : Option (List ContainerStatus)
deriving DecidableEq, Repr

/-- Embeds the fields of k8s Pod read by the code. -/
structure Pod where
  status : Option PodStatus
deriving DecidableEq, Repr

/-- Embeds the map/flatten chain in get_watcher (handlers.rs) that extracts
the waiting-reason message of the first container status of the first pod:
any absent link yields None. -/
def podWaitingMessage (pods : List Pod) : Option String :=
  ((((((pods.head?).bind (fun p => p.status)).bind
      (fun ps => ps.container_statuses)).bind
      (fun css => css.head?)).bind
      (fun cs => cs.state)).bind
      (fun cs => cs.waiting)).bind
      (fun csw => csw.message)

/-- Embeds the fields of k8s LoadBalancerIngress read by the code. -/
structure LoadBalancerIngress where
  hostname : Option String
  ip : Option String
deriving DecidableEq, Repr

/-- Embeds the fields of k8s LoadBalancerStatus read by the code. -/
structure LoadBalancerStatus where
  ingress : Option (List LoadBalancerIngress)
deriving DecidableEq, Repr

/-- Embeds the fields of k8s ServiceStatus read by the code. -/
structure ServiceStatus where
  load_balancer : Option LoadBalancerStatus
deriving DecidableEq, Repr

/-- Embeds the fields of k8s Service read by the code. -/
structure Service where
  status : Option ServiceStatus
deriving DecidableEq, Repr

/-- Embeds the map/flatten chain in get_watcher (handlers.rs) that extracts
the first load-balancer ingress hostname, falling back to its IP: any
absent link yields None. -/
def serviceIngest (svc : Service) : Option String :=
  ((((svc.status.bind (fun s => s.load_balancer)).bind
      (fun lbs => lbs.ingress)).bind
      (fun ing => ing.head?)).bind
      (fun lb =>
        match lb.hostname with
        | some h => some h
        | none => lb.ip))

/-- Embeds get_watcher (handlers.rs). Inputs: the Deployment fetch, the
ConfigMap fetch, the Pod list the cluster would return for the watcher's
label selector (listed only on the Pending branch), and the Service
get_status result (fetched only when the status is not Error; the source
unwraps it, so a failed fetch is a panic, modelled as `none`). Output: HTTP
code and the response Watcher; `none` models a panic. -/
def get_watcher (deployFetch : Option Deployment) (configFetch : Option ConfigMap)
    (pods : List Pod) (svcFetch : Option Service) : Option (Nat × Option Watcher) :=
  match deployFetch with
  | none => some (404, none)
  | some d =>
    match configFetch with
    | none => some (404, none)
    | some c =>
      match configWatcher c with
      | none => none
      | some w0 =>
        match get_watcher_status d with
        | none => none
        | some st =>
          let status_description :=
            if st = Status.pending then podWaitingMessage pods else none
          let w1 : Watcher :=
            { w0 with status := some st, status_description := status_description }
          if st ≠ Status.error then
            match svcFetch with
            | none => none
            | some svc =>
              some (200, some { w1 with
                source := { w1.source with ingest_ip := serviceIngest svc } })
          else
            some (200, some { w1 with
              source := { w1.source with ingest_ip := none } })

/-- An HTTP response of the worker's metrics app, with the two headers the
code sets. Body bytes are modelled as a list of byte values. -/
structure FrameResponse where
  status : Nat
  body : List Nat
  contentType : Option String
  cacheControl : Option String
deriving DecidableEq, Repr

/-- Embeds latest_frame (hawkeye-worker metrics.rs): the shared latest-frame
buffer is read; when it holds an image the response is 200 with the image
bytes, otherwise 404 with an empty body; both branches set Content-Type
image/png and Cache-Control no-store. -/
def latest_frame (buffer : Option (List Nat)) : FrameResponse :=
  match buffer with
  | some image =>
      { status := 200, body := image,
        contentType := some "image/png", cacheControl := some "no-store" }
  | none =>
      { status := 404, body := [],
        contentType := some "image/png", cacheControl := some "no-store" }

/-- The resolver's inner match on (observed, defaulted target) agrees with
the spec table once the default of the target parse is split out. -/
lemma resolveMatch_eq_specTable (o : Status) (t : Option Status) :
    (match o, t.getD Status.error with
      | Status.running, Status.running => Status.running
      | Status.ready, Status.ready => Status.ready
      | Status.ready, Status.running => Status.pending
      | Status.running, Status.ready => Status.pending
      | _, _ => Status.error) =
    (match t with
      | none => Status.error
      | some tt => specTable o tt) := by
  cases t with
  | none => cases o <;> rfl
  | some tt => cases o <;> cases tt <;> rfl

/-- A Deployment on which the resolver panics although its runtime status
field is present and its inputs resolve to Running under the claimed table:
the metadata name is absent, and Option::unwrap_or evaluates the fallback
block (whose expect asserts the name) eagerly. -/
def c1PanicDeploy : Deployment :=
  { metadata := { name := none, labels := some [("target_status", "running")] },
    status := some { available_replicas := some 1 } }

/-- C1 counterexample: the claim quantifies over every Deployment whose
runtime status field is present, but on c1PanicDeploy — status present,
observed Running, target label parsing to Running — the code panics
(modelled as none) instead of returning the table value Running. -/
theorem c1_resolution_counterexample :
    c1PanicDeploy.status.isSome = true ∧
    specDerived c1PanicDeploy = Status.running ∧
    get_watcher_status c1PanicDeploy ≠ some (specDerived c1PanicDeploy) := by
  refine ⟨rfl, by decide, by decide⟩

/-- C1 (amended): for every Deployment whose metadata name is present, the
derived status is the resolution table applied to (observed, target) —
observed Running iff available_replicas > 0 (absent counting as 0) — with a
missing or unparsable target_status label, or an absent runtime status
field, yielding Error. -/
theorem c1_resolution_amended (d : Deployment) (h : d.metadata.name.isSome = true) :
    get_watcher_status d = some (specDerived d) := by
  rcases d with ⟨⟨name, labels⟩, status⟩
  cases name with
  | none => simp at h
  | some n =>
    cases status with
    | none => rfl
    | some ds =>
      refine congrArg some ?_
      have := resolveMatch_eq_specTable
        (if (ds.available_replicas.getD 0) > 0 then Status.running else Status.ready)
        ((labels.bind (fun l => List.lookup "target_status" l)).bind
          (fun s => parseStatus s))
      simpa [get_watcher_status, specDerived, specObserved] using this

/-- C1 witness: a concrete Deployment with a present name, a target label
Running and one available replica resolves per the table to Running. -/
theorem c1_resolution_amended_witness :
    (Deployment.mk (ObjectMeta.mk (some "w") (some [("target_status", "running")]))
        (some (DeploymentStatus.mk (some 1)))).metadata.name.isSome = true ∧
    get_watcher_status
        (Deployment.mk (ObjectMeta.mk (some "w") (some [("target_status", "running")]))
          (some (DeploymentStatus.mk (some 1)))) =
      some (specDerived
        (Deployment.mk (ObjectMeta.mk (some "w") (some [("target_status", "running")]))
          (some (DeploymentStatus.mk (some 1))))) :=
  ⟨rfl, c1_resolution_amended _ rfl⟩

/-- C2: for every fetched Deployment whose derived status is defined, start
and stop follow the claimed decision tables — start: Running→AlreadyRunning
200, Pending→CurrentlyUpdating 409, Ready→scale to 1 then set the target
label Running, Starting 200, Error→InErrorState 406; stop symmetric with
Ready→AlreadyStopped 200 and Running→scale to 0 then target Ready, Stopping
200 — and a failed Deployment fetch yields NotFound 404 for both. -/
theorem c2_start_stop_tables (d : Deployment) (s : Status)
    (h : get_watcher_status d = some s) :
    start_watcher (some d) = some (specStartDecision s) ∧
    stop_watcher (some d) = some (specStopDecision s) ∧
    start_watcher none = some (WatcherStartStatus.notFound, 404, []) ∧
    stop_watcher none = some (WatcherStopStatus.notFound, 404, []) := by
  refine ⟨?_, ?_, rfl, rfl⟩
  · simp only [start_watcher, h]
    cases s <;> rfl
  · simp only [stop_watcher, h]
    cases s <;> rfl

/-- C2 witness: on a concrete stopped Deployment (status Ready) the tables
apply: start issues the scale and label patches and stop is a no-op. -/
theorem c2_start_stop_tables_witness :
    get_watcher_status
        (Deployment.mk (ObjectMeta.mk (some "w") (some [("target_status", "ready")]))
          (some (DeploymentStatus.mk none))) = some Status.ready ∧
    (start_watcher (some
        (Deployment.mk (ObjectMeta.mk (some "w") (some [("target_status", "ready")]))
          (some (DeploymentStatus.mk none)))) =
      some (specStartDecision Status.ready) ∧
    stop_watcher (some
        (Deployment.mk (ObjectMeta.mk (some "w") (some [("target_status", "ready")]))
          (some (DeploymentStatus.mk none)))) =
      some (specStopDecision Status.ready) ∧
    start_watcher none = some (WatcherStartStatus.notFound, 404, []) ∧
    stop_watcher none = some (WatcherStopStatus.notFound, 404, [])) :=
  ⟨rfl, c2_start_stop_tables _ Status.ready rfl⟩

/-- C3: guard rejections mutate nothing — when the derived status is not
Ready, start issues no mutating calls; when it is not Running, stop issues
no mutating calls; and a failed Deployment fetch (NotFound) issues none
either. -/
theorem c3_no_mutation_on_rejection (d : Deployment) (s : Status)
    (h : get_watcher_status d = some s) :
    (s ≠ Status.ready →
      (start_watcher (some d)).map (fun r => r.2.2) = some []) ∧
    (s ≠ Status.running →
      (stop_watcher (some d)).map (fun r => r.2.2) = some []) ∧
    (start_watcher none).map (fun r => r.2.2) = some [] ∧
    (stop_watcher none).map (fun r => r.2.2) = some [] := by
  refine ⟨?_, ?_, rfl, rfl⟩
  · intro hs
    simp only [start_watcher, h]
    cases s with
    | ready => exact absurd rfl hs
    | running => rfl
    | pending => rfl
    | error => rfl
  · intro hs
    simp only [stop_watcher, h]
    cases s with
    | running => exact absurd rfl hs
    | ready => rfl
    | pending => rfl
    | error => rfl

/-- C3 witness: on a concrete Deployment in Pending (target Running,
no available replicas), both start and stop are rejected without issuing
any mutating call. -/
theorem c3_no_mutation_on_rejection_witness :
    get_watcher_status
        (Deployment.mk (ObjectMeta.mk (some "w") (some [("target_status", "running")]))
          (some (DeploymentStatus.mk none))) = some Status.pending ∧
    (start_watcher (some
        (Deployment.mk (ObjectMeta.mk (some "w") (some [("target_status", "running")]))
          (some (DeploymentStatus.mk none))))).map (fun r => r.2.2) = some [] ∧
    (stop_watcher (some
        (Deployment.mk (ObjectMeta.mk (some "w") (some [("target_status", "running")]))
          (some (DeploymentStatus.mk none))))).map (fun r => r.2.2) = some [] := by
  have h := c3_no_mutation_on_rejection
    (Deployment.mk (ObjectMeta.mk (some "w") (some [("target_status", "running")]))
      (some (DeploymentStatus.mk none))) Status.pending rfl
  exact ⟨rfl, h.1 (by decide), h.2.1 (by decide)⟩

/-- C4: create assigns the generated identifier, issues the three creation
calls in order Config then Workload then Endpoint, and returns 201 with a
Watcher whose status is Pending and whose ingest address is absent. -/
theorem c4_create_watcher (newId : String) (w : Watcher) :
    (create_watcher newId w).1.id = some newId ∧
    (create_watcher newId w).1.status = some Status.pending ∧
    (create_watcher newId w).1.source.ingest_ip = none ∧
    (create_watcher newId w).2.1 = 201 ∧
    (create_watcher newId w).2.2 =
      [Effect.createResource ResourceKind.config,
       Effect.createResource ResourceKind.workload,
       Effect.createResource ResourceKind.endpoint] :=
  ⟨rfl, rfl, rfl, rfl, rfl⟩

/-- C5: when the Workload and Config resources both exist, upgrade is
accepted only with derived status exactly Ready — any other derived status
is rejected with 400 and no mutating call — and on the Ready path exactly
the container-spec patch is issued and the Watcher is returned with status
Ready. -/
theorem c5_upgrade_guard (d : Deployment) (c : ConfigMap) (w : Watcher) (s : Status)
    (hw : configWatcher c = some w) (hs : get_watcher_status d = some s) :
    (∀ patchOk, s ≠ Status.ready →
      upgrade_watcher (some d) (some c) patchOk = some (400, none, [])) ∧
    (s = Status.ready →
      upgrade_watcher (some d) (some c) true =
        some (200, some { w with status := some Status.ready },
          [Effect.patchContainerSpec])) := by
  constructor
  · intro patchOk hne
    simp only [upgrade_watcher, hw, hs]
    rw [if_pos hne]
  · intro he
    subst he
    simp only [upgrade_watcher, hw, hs]
    rfl

/-- C5 witness: concrete Ready Deployment and a parsable ConfigMap — the
rejection branch at a Pending Deployment and the accepted branch at the
Ready one. -/
theorem c5_upgrade_guard_witness :
    configWatcher (ConfigMap.mk (some [("watcher.json",
        some (Watcher.mk (some "a") (Source.mk 5000 none) none none none))])) =
      some (Watcher.mk (some "a") (Source.mk 5000 none) none none none) ∧
    get_watcher_status
        (Deployment.mk (ObjectMeta.mk (some "w") (some [("target_status", "ready")]))
          (some (DeploymentStatus.mk none))) = some Status.ready ∧
    upgrade_watcher
        (some (Deployment.mk (ObjectMeta.mk (some "w") (some [("target_status", "ready")]))
          (some (DeploymentStatus.mk none))))
        (some (ConfigMap.mk (some [("watcher.json",
          some (Watcher.mk (some "a") (Source.mk 5000 none) none none none))])))
        true =
      some (200,
        some (Watcher.mk (some "a") (Source.mk 5000 none) none (some Status.ready) none),
        [Effect.patchContainerSpec]) := by
  have h := c5_upgrade_guard
    (Deployment.mk (ObjectMeta.mk (some "w") (some [("target_status", "ready")]))
      (some (DeploymentStatus.mk none)))
    (ConfigMap.mk (some [("watcher.json",
      some (Watcher.mk (some "a") (Source.mk 5000 none) none none none))]))
    (Watcher.mk (some "a") (Source.mk 5000 none) none none none)
    Status.ready rfl rfl
  exact ⟨rfl, rfl, h.2 rfl⟩

/-- C6: delete always issues the three delete calls in order Workload,
Config, Endpoint, and the HTTP result is decided solely by the Endpoint
(Service) delete — 200 when it succeeds, 404 when it fails — regardless of
the Workload and Config delete results. -/
theorem c6_delete_watcher (workloadOk configOk endpointOk : Bool) :
    delete_watcher workloadOk configOk endpointOk =
      ((if endpointOk then 200 else 404),
       [Effect.deleteResource ResourceKind.workload,
        Effect.deleteResource ResourceKind.config,
        Effect.deleteResource ResourceKind.endpoint]) := rfl

/-- C9 counterexample: the resolver is not total over all Deployments — on
a Deployment with absent metadata name (target label Absent, observed
Absent) the code panics via the eagerly evaluated expect, modelled as
none. -/
theorem c9_totality_counterexample :
    get_watcher_status
      (Deployment.mk (ObjectMeta.mk none none) none) = none := rfl

/-- C9 (amended): for every Deployment whose metadata name is present —
over all {target Ready, Running, Absent/Malformed} × {observed Ready,
Running, Absent} combinations — the resolver returns a defined Status and
does not panic. -/
theorem c9_totality_amended (d : Deployment) (h : d.metadata.name.isSome = true) :
    (get_watcher_status d).isSome = true := by
  rcases d with ⟨⟨name, labels⟩, status⟩
  cases name with
  | none => simp at h
  | some n => cases status <;> rfl

/-- C9 witness: the resolver is defined on a concrete named Deployment with
no labels and no runtime status. -/
theorem c9_totality_amended_witness :
    (Deployment.mk (ObjectMeta.mk (some "w") none) none).metadata.name.isSome = true ∧
    (get_watcher_status (Deployment.mk (ObjectMeta.mk (some "w") none) none)).isSome
      = true :=
  ⟨rfl, c9_totality_amended _ rfl⟩

/-- C10: the worker's latest_frame endpoint returns 404 with an empty body
when the shared latest-frame buffer is empty, 200 with the frame bytes when
it is not, and both responses carry Content-Type image/png and
Cache-Control no-store. -/
theorem c10_latest_frame :
    latest_frame none =
      { status := 404, body := [],
        contentType := some "image/png", cacheControl := some "no-store" } ∧
    ∀ image : List Nat, latest_frame (some image) =
      { status := 200, body := image,
        contentType := some "image/png", cacheControl := some "no-store" } :=
  ⟨rfl, fun _ => rfl⟩

/-- Decides whether a ConfigMap has a matching index entry resolved to Running. -/
def matchedRunningB (idx : List (String × Status)) (c : ConfigMap) : Bool :=
  match configWatcher c with
  | none => false
  | some w =>
    match List.lookup (w.id.getD "undefined") idx with
    | some Status.running => true
    | _ => false

/-- Decides whether a ConfigMap has no matching index entry at all. -/
def unmatchedB (idx : List (String × Status)) (c : ConfigMap) : Bool :=
  match configWatcher c with
  | none => false
  | some w =>
    match List.lookup (w.id.getD "undefined") idx with
    | none => true
    | some _ => false

lemma renderConfigs_counts (idx : List (String × Status)) :
    ∀ (cs : List ConfigMap) (ws : List Watcher),
      renderConfigs idx cs = some ws →
      (∀ c ∈ cs, matchedRunningB idx c = true ∨ unmatchedB idx c = true) →
      ws.length = cs.length ∧
      ws.countP (fun w => w.status == some Status.running) =
        cs.countP (matchedRunningB idx) ∧
      ws.countP (fun w => w.status == some Status.running) +
        ws.countP (fun w => w.status == some Status.error) = ws.length := by
  intro cs
  induction cs with
  | nil =>
    intro ws h _
    simp only [renderConfigs, Option.some.injEq] at h
    subst h
    simp
  | cons c cs ih =>
    intro ws h hpart
    simp only [renderConfigs] at h
    cases hw : configWatcher c with
    | none => rw [hw] at h; cases h
    | some watcher =>
      rw [hw] at h
      cases hr : renderConfigs idx cs with
      | none => rw [hr] at h; cases h
      | some rest =>
        rw [hr] at h
        simp only [Option.some.injEq] at h
        subst h
        have hrec := ih rest hr (fun x hx => hpart x (List.mem_cons_of_mem c hx))
        have hc := hpart c (List.mem_cons_self c cs)
        have hlook : List.lookup (watcher.id.getD "undefined") idx = some Status.running ∨
            List.lookup (watcher.id.getD "undefined") idx = none := by
          cases hl2 : List.lookup (watcher.id.getD "undefined") idx with
          | none => exact Or.inr rfl
          | some s =>
            refine Or.inl ?_
            rcases hc with hm | hu
            · simp only [matchedRunningB, hw, hl2] at hm
              cases s with
              | running => rfl
              | ready => exact absurd hm (by decide)
              | pending => exact absurd hm (by decide)
              | error => exact absurd hm (by decide)
            · simp only [unmatchedB, hw, hl2] at hu
              exact absurd hu (by decide)
        have hmval : matchedRunningB idx c =
            (List.lookup (watcher.id.getD "undefined") idx == some Status.running) := by
          simp only [matchedRunningB, hw]
          cases hl2 : List.lookup (watcher.id.getD "undefined") idx with
          | none => rfl
          | some s => cases s <;> rfl
        have e1 : ((some Status.running : Option Status) == some Status.running) = true := rfl
        have e2 : ((some Status.running : Option Status) == some Status.error) = false := rfl
        have e3 : ((some Status.error : Option Status) == some Status.running) = false := rfl
        have e4 : ((some Status.error : Option Status) == some Status.error) = true := rfl
        have e5 : ((none : Option Status) == some Status.running) = false := rfl
        obtain ⟨h1, h2, h3⟩ := hrec
        rcases hlook with hl | hl
        · rw [hl] at hmval
          simp [hl, List.countP_cons, hmval, e1, e2]
          refine ⟨by omega, by omega, by omega⟩
        · rw [hl] at hmval
          simp [hl, List.countP_cons, hmval, e3, e4, e5]
          refine ⟨by omega, by omega, by omega⟩


/-- C7: when every Config resource parses and each one either has a matching
Workload index entry resolved to Running or no matching entry at all, with
a strict subset M of the N Configs matched, list returns exactly N Watchers
— one per Config, Config being the enumeration source — of which M have
status Running and the remaining N − M have status Error. -/
theorem c7_listing (ds : List Deployment) (cs : List ConfigMap)
    (idx : List (String × Status)) (ws : List Watcher) (M : Nat)
    (hidx : buildIndex ds = some idx)
    (hlist : list_watchers ds cs = some ws)
    (hM : M = cs.countP (matchedRunningB idx))
    (hpart : ∀ c ∈ cs, matchedRunningB idx c = true ∨ unmatchedB idx c = true)
    (hstrict : M < cs.length) :
    ws.length = cs.length ∧
    ws.countP (fun w => w.status == some Status.running) = M ∧
    ws.countP (fun w => w.status == some Status.error) = cs.length - M := by
  subst hM
  have hre : renderConfigs idx cs = some ws := by
    simpa [list_watchers, hidx] using hlist
  obtain ⟨h1, h2, h3⟩ := renderConfigs_counts idx cs ws hre hpart
  exact ⟨h1, h2, by omega⟩

def c7Deployments : List Deployment :=
  [Deployment.mk
    (ObjectMeta.mk (some "hawkeye-deploy-a")
      (some [("watcher_id", "a"), ("target_status", "running")]))
    (some (DeploymentStatus.mk (some 1)))]

def c7Configs : List ConfigMap :=
  [ConfigMap.mk (some [("watcher.json",
      some (Watcher.mk (some "a") (Source.mk 5000 none) none none none))]),
   ConfigMap.mk (some [("watcher.json",
      some (Watcher.mk (some "b") (Source.mk 5001 none) none none none))])]

def c7Returned : List Watcher :=
  [Watcher.mk (some "a") (Source.mk 5000 none) none (some Status.running) none,
   Watcher.mk (some "b") (Source.mk 5001 none) none (some Status.error) none]

/-- C7 witness: one Running Deployment matching the first of two Configs —
list returns two Watchers, one Running and one Error. -/
theorem c7_listing_witness :
    buildIndex c7Deployments = some [("a", Status.running)] ∧
    list_watchers c7Deployments c7Configs = some c7Returned ∧
    (1 : Nat) = c7Configs.countP (matchedRunningB [("a", Status.running)]) ∧
    (∀ c ∈ c7Configs, matchedRunningB [("a", Status.running)] c = true ∨
      unmatchedB [("a", Status.running)] c = true) ∧
    1 < c7Configs.length ∧
    (c7Returned.length = c7Configs.length ∧
     c7Returned.countP (fun w => w.status == some Status.running) = 1 ∧
     c7Returned.countP (fun w => w.status == some Status.error) = c7Configs.length - 1) :=
  ⟨rfl, rfl, by decide, by decide, by decide,
    c7_listing c7Deployments c7Configs [("a", Status.running)] c7Returned 1
      rfl rfl (by decide) (by decide) (by decide)⟩

/-- C8: in get, when both backing resources exist (and parse, resolve and
the Endpoint fetch succeed), the response is always 200: the
status_description is the best-effort pod waiting-reason chain exactly when
the derived status is Pending (any absent link yielding none), and the
ingest address is the best-effort Endpoint hostname-or-IP chain exactly
when the derived status is not Error (any absent link yielding none). -/
theorem c8_get_enrichment (d : Deployment) (c : ConfigMap) (w0 : Watcher) (s : Status)
    (pods : List Pod) (svc : Service)
    (hw : configWatcher c = some w0) (hs : get_watcher_status d = some s) :
    ∃ w, get_watcher (some d) (some c) pods (some svc) = some (200, some w) ∧
      w.status = some s ∧
      w.status_description = (if s = Status.pending then podWaitingMessage pods else none) ∧
      w.source.ingest_ip = (if s ≠ Status.error then serviceIngest svc else none) := by
  by_cases he : s = Status.error
  · subst he
    refine ⟨{ w0 with status := some Status.error, status_description := none, source := { w0.source with ingest_ip := none } }, ?_, rfl, rfl, rfl⟩
    simp [get_watcher, hw, hs]
  · refine ⟨{ w0 with status := some s, status_description := (if s = Status.pending then podWaitingMessage pods else none), source := { w0.source with ingest_ip := serviceIngest svc } }, ?_, rfl, rfl, ?_⟩
    · simp only [get_watcher, hw, hs]
      rw [if_pos he]
    · rw [if_pos he]

/-- C8 witness: a Pending Deployment, an empty pod list and a Service with
no assigned address yield 200 with no description and no address. -/
theorem c8_get_enrichment_witness :
    configWatcher (ConfigMap.mk (some [("watcher.json",
        some (Watcher.mk (some "a") (Source.mk 5000 none) none none none))])) =
      some (Watcher.mk (some "a") (Source.mk 5000 none) none none none) ∧
    get_watcher_status
        (Deployment.mk (ObjectMeta.mk (some "w") (some [("target_status", "running")]))
          (some (DeploymentStatus.mk none))) = some Status.pending ∧
    ∃ w, get_watcher
        (some (Deployment.mk (ObjectMeta.mk (some "w") (some [("target_status", "running")]))
          (some (DeploymentStatus.mk none))))
        (some (ConfigMap.mk (some [("watcher.json",
          some (Watcher.mk (some "a") (Source.mk 5000 none) none none none))])))
        [] (some (Service.mk none)) = some (200, some w) ∧
      w.status = some Status.pending ∧
      w.status_description =
        (if Status.pending = Status.pending then podWaitingMessage [] else none) ∧
      w.source.ingest_ip =
        (if Status.pending ≠ Status.error then serviceIngest (Service.mk none) else none) :=
  ⟨rfl, rfl,
    c8_get_enrichment
      (Deployment.mk (ObjectMeta.mk (some "w") (some [("target_status", "running")]))
        (some (DeploymentStatus.mk none)))
      (ConfigMap.mk (some [("watcher.json",
        some (Watcher.mk (some "a") (Source.mk 5000 none) none none none))]))
      (Watcher.mk (some "a") (Source.mk 5000 none) none none none)
      Status.pending [] (Service.mk none) rfl rfl⟩

end Hawkeye
